import Mathlib

/-!
Shallow embedding of the CRM data-access and mutation layer
(`crm/models.py`, `crm/schema.py`, `crm/filters.py`).

Conventions of the embedding:
* Django model rows become Lean structures; the database becomes a `DB`
  structure holding the three tables as lists (insertion order = primary-key
  order, as in the relational store).
* `DecimalField` monetary amounts are modelled as `Int` (a fixed-point
  scaling; only sums and order comparisons of prices occur in this layer).
* `DateTimeField` values are modelled as `Nat` timestamps; `timezone.now()`
  becomes an explicit `now` argument.
* GraphQL `ID` values are modelled as `Nat` database primary keys.
* Python exceptions that the mutations raise and catch (`ValidationError`
  and the structured error lists built from `e.messages`) are modelled as
  explicit error-list return values; each constructor of the error types
  below corresponds to exactly one message string the code can produce.
* The `auto_now` column `updated_at` is never read by this layer and is
  elided.
-/

namespace CRM

/-- `crm/models.py` `Customer`: name, unique email, optional phone,
`created_at` timestamp. -/
structure Customer where
  id : Nat
  name : String
  email : String
  phone : Option String
  created_at : Nat
deriving Repr, DecidableEq

/-- `crm/models.py` `Product`: name, decimal price, optional description,
integer stock. -/
structure Product where
  id : Nat
  name : String
  price : Int
  description : Option String
  stock : Int
deriving Repr, DecidableEq

/-- `crm/models.py` `Order`: owning customer, many-to-many product
association (modelled as the list of associated product ids), stored
`total_amount` snapshot, `order_date`. -/
structure Order where
  id : Nat
  customerId : Nat
  productIds : List Nat
  total_amount : Int
  order_date : Nat
deriving Repr, DecidableEq

/-- The relational store: the three tables of the core. -/
structure DB where
  customers : List Customer := []
  products : List Product := []
  orders : List Order := []
deriving Repr, DecidableEq

def emptyDB : DB := {}

/-- Fresh primary key for a customer row (auto-increment pk). -/
def freshCustomerId (db : DB) : Nat :=
  (db.customers.map Customer.id).foldr max 0 + 1

/-- Fresh primary key for an order row (auto-increment pk). -/
def freshOrderId (db : DB) : Nat :=
  (db.orders.map Order.id).foldr max 0 + 1

/-! ### Validation helpers (`crm/schema.py` lines 176-182 and the Django
field validation that `Customer.full_clean()` runs) -/

/-- The `NNN-NNN-NNNN` alternative of the phone regex
`^(\+\d{1,15}|\d{3}-\d{3}-\d{4})$` in `validate_phone`. -/
def isDashPhone : List Char → Bool
  | [a, b, c, '-', d, e, f, '-', g, h, i, j] =>
      [a, b, c, d, e, f, g, h, i, j].all Char.isDigit
  | _ => false

/-- `validate_phone` (`crm/schema.py` line 176): the phone string must match
`^(\+\d{1,15}|\d{3}-\d{3}-\d{4})$`. -/
def phoneValid (s : String) : Bool :=
  (match s.toList with
   | '+' :: ds => decide (1 ≤ ds.length) && decide (ds.length ≤ 15) && ds.all Char.isDigit
   | _ => false)
  || isDashPhone s.toList

/-- Split a character list at every occurrence of a separator character
(the pieces, in order, separators dropped; `n` separators give `n + 1`
pieces). -/
def splitOnChar (c : Char) : List Char → List (List Char)
  | [] => [[]]
  | x :: xs =>
      match splitOnChar c xs, decide (x = c) with
      | r, true => [] :: r
      | [], false => [[x]]
      | y :: ys, false => (x :: y) :: ys

/-- Simplified model of the syntax check Django's `EmailField` performs in
`full_clean`: one `@` separating a non-empty local part from a dotted,
non-empty domain.  Every email the claims exercise is classified the same
way by this model and by Django's validator. -/
def emailValid (s : String) : Bool :=
  match splitOnChar '@' s.toList with
  | [lp, dom] =>
      !lp.isEmpty && !dom.isEmpty &&
      (splitOnChar '.' dom).all (fun piece => !piece.isEmpty) &&
      decide (2 ≤ (splitOnChar '.' dom).length)
  | _ => false

/-- One constructor per distinct message string the customer mutations can
put into their `errors` list (`e.messages` entries). -/
inductive CustomerError where
  /-- `validate_email_unique` / `validate_unique`: "Email '...' already exists". -/
  | emailExists (email : String)
  /-- `validate_phone`: "Phone must be in +1234567890 or 123-456-7890 format". -/
  | badPhone (phone : String)
  /-- `full_clean` on a blank `name`: "This field cannot be blank.". -/
  | blankName
  /-- `full_clean`, `name` over `max_length=255`. -/
  | nameTooLong
  /-- `full_clean` on a blank `email`: "This field cannot be blank.". -/
  | blankEmail
  /-- `full_clean`, `email` over `max_length=254`. -/
  | emailTooLong
  /-- `full_clean`: "Enter a valid email address.". -/
  | invalidEmail (email : String)
  /-- `full_clean`, `phone` over `max_length=20`. -/
  | phoneTooLong
deriving Repr, DecidableEq

/-- Whether a customer row with this email exists
(`Customer.objects.filter(email=email).exists()`). -/
def emailTaken (db : DB) (email : String) : Bool :=
  db.customers.any (fun c => c.email == email)

/-- `Customer.full_clean()`: per-field validation of a customer instance, in
field-declaration order (name, email, phone), followed by the model-level
uniqueness check; returns the flattened `e.messages` list. -/
def fullCleanCustomer (db : DB) (nm email : String) (phone : Option String) :
    List CustomerError :=
  (if nm = "" then [CustomerError.blankName]
   else if 255 < nm.length then [CustomerError.nameTooLong] else [])
  ++ (if email = "" then [CustomerError.blankEmail]
      else (if 254 < email.length then [CustomerError.emailTooLong] else [])
        ++ (if emailValid email then [] else [CustomerError.invalidEmail email]))
  ++ (if 20 < (phone.getD "").length then [CustomerError.phoneTooLong] else [])
  ++ (if emailTaken db email then [CustomerError.emailExists email] else [])

/-- Python truthiness of the optional phone argument (`if phone:` /
`if data.phone:`): present and non-empty. -/
def phoneTruthy (phone : Option String) : Bool :=
  phone.getD "" != ""

/-! ### Customer mutations (`crm/schema.py` lines 188-241, the bindings in
force at module level) -/

/-- The shared try-body of `CreateCustomer.mutate` and of one iteration of
`BulkCreateCustomers.mutate`'s loop: `validate_email_unique`, then
`validate_phone` when the phone is truthy, then `full_clean` and `save`;
a raised `ValidationError` leaves the store untouched and becomes the
returned message list. -/
def tryCreateCustomer (db : DB) (now : Nat) (nm email : String)
    (phone : Option String) : DB × Option Customer × List CustomerError :=
  if emailTaken db email then
    (db, none, [CustomerError.emailExists email])
  else if phoneTruthy phone && !phoneValid (phone.getD "") then
    (db, none, [CustomerError.badPhone (phone.getD "")])
  else
    match fullCleanCustomer db nm email phone with
    | [] =>
        let c : Customer :=
          { id := freshCustomerId db, name := nm, email := email,
            phone := phone, created_at := now }
        ({ db with customers := db.customers ++ [c] }, some c, [])
    | e :: es => (db, none, e :: es)

/-- `CreateCustomer.mutate` (`crm/schema.py` lines 198-208). -/
def createCustomer (db : DB) (now : Nat) (nm email : String)
    (phone : Option String) : DB × Option Customer × List CustomerError :=
  tryCreateCustomer db now nm email phone

/-- `CustomerInput` (`crm/schema.py` lines 211-214). -/
structure CustomerInput where
  name : String
  email : String
  phone : Option String := none
deriving Repr, DecidableEq

/-- `BulkCreateCustomers.mutate` (`crm/schema.py` lines 224-241): the loop
over the input rows; each row's `ValidationError` messages are appended to
the flat `errors` list (`errors.extend(e.messages)`) and processing
continues with the next row. -/
def bulkCreateCustomers (db : DB) (now : Nat) :
    List CustomerInput → DB × List Customer × List CustomerError
  | [] => (db, [], [])
  | data :: rest =>
      let r1 := tryCreateCustomer db now data.name data.email data.phone
      let r2 := bulkCreateCustomers r1.1 now rest
      (r2.1, r1.2.1.toList ++ r2.2.1, r1.2.2 ++ r2.2.2)

/-! ### Order creation (`crm/schema.py` lines 267-307) -/

/-- One constructor per error message `CreateOrder.mutate` can return. -/
inductive OrderError where
  /-- "Invalid customer ID: {customer_id}". -/
  | invalidCustomer (id : Nat)
  /-- "Invalid product IDs: {comma-joined ids}" — carries the set
  `set(product_ids) - set(str(p.id) for p in products)`. -/
  | invalidProductIds (ids : List Nat)
  /-- "At least one product is required". -/
  | atLeastOneProduct
deriving Repr, DecidableEq

/-- `CreateOrder.mutate` (`crm/schema.py` lines 276-307): resolve the
customer, resolve the products with `filter(id__in=product_ids)`, reject a
length mismatch by enumerating the unresolved ids, reject an empty product
list, otherwise create the order with its associations, its recomputed
`total_amount`, and `order_date or timezone.now()`. -/
def createOrder (db : DB) (now : Nat) (customerId : Nat)
    (productIds : List Nat) (orderDate : Option Nat) :
    DB × Option Order × List OrderError :=
  match db.customers.find? (fun c => c.id == customerId) with
  | none => (db, none, [OrderError.invalidCustomer customerId])
  | some customer =>
      let products := db.products.filter (fun p => productIds.contains p.id)
      if products.length ≠ productIds.length then
        let invalidIds :=
          (productIds.filter (fun pid => !products.any (fun p => p.id == pid))).dedup
        (db, none, [OrderError.invalidProductIds invalidIds])
      else if products.isEmpty then
        (db, none, [OrderError.atLeastOneProduct])
      else
        let order : Order :=
          { id := freshOrderId db
            customerId := customer.id
            productIds := products.map Product.id
            total_amount := (products.map Product.price).sum
            order_date := orderDate.getD now }
        ({ db with orders := db.orders ++ [order] }, some order, [])

/-! ### Low-stock restock (`crm/schema.py` lines 388-417) -/

/-- The effect of one loop iteration of `UpdateLowStockProducts.mutate` on a
product row: a row selected by `filter(stock__lt=10)` gets `stock += 10`,
every other row is untouched. -/
def restockProduct (p : Product) : Product :=
  if p.stock < 10 then { p with stock := p.stock + 10 } else p

/-- The summary message `f"{len(updated)} products updated at {timezone.now()}"`. -/
def mkUpdateMessage (n now : Nat) : String :=
  s!"{n} products updated at {now}"

structure UpdateLowStockResult where
  db : DB
  success : Bool
  message : String
  updatedProducts : List Product
deriving Repr, DecidableEq

/-- `UpdateLowStockProducts.mutate` (`crm/schema.py` lines 396-417). -/
def updateLowStockProducts (db : DB) (now : Nat) : UpdateLowStockResult :=
  let lowStock := db.products.filter (fun p => decide (p.stock < 10))
  let updated := lowStock.map (fun p => { p with stock := p.stock + 10 })
  let db' : DB := { db with products := db.products.map restockProduct }
  if updated.isEmpty then
    { db := db', success := true, message := "No low-stock products found",
      updatedProducts := [] }
  else
    { db := db', success := true,
      message := mkUpdateMessage updated.length now,
      updatedProducts := updated }

/-! ### Filter engine (`crm/filters.py`) -/

/-- Bool-valued infix test on character lists (the relational `LIKE
%needle%` used by `icontains` lookups). -/
def listIsInfixOf (needle : List Char) : List Char → Bool
  | [] => needle.isEmpty
  | c :: t => needle.isPrefixOf (c :: t) || listIsInfixOf needle t

/-- Case-insensitive substring match: the `icontains` lookup. -/
def icontains (hay sub : String) : Bool :=
  listIsInfixOf sub.toLower.toList hay.toLower.toList

/-- Case-sensitive prefix match: the `startswith` lookup. -/
def startsWithLookup (hay sub : String) : Bool :=
  sub.toList.isPrefixOf hay.toList

/-- Insert into a sorted list, keeping elements on which `le` holds first. -/
def insertLe (le : α → α → Bool) (a : α) : List α → List α
  | [] => [a]
  | b :: t => if le a b then a :: b :: t else b :: insertLe le a t

/-- Insertion sort by a Bool-valued `le`: the `ORDER BY` applied by an
`OrderingFilter`. -/
def sortLe (le : α → α → Bool) : List α → List α
  | [] => []
  | a :: t => insertLe le a (sortLe le t)

/-- Compare two rows by a list of ordering keys, first non-tie wins
(`ORDER BY k1, k2, ...`). -/
def keysCmp (fieldCmp : String → α → α → Ordering) (ks : List String)
    (p q : α) : Ordering :=
  match ks with
  | [] => Ordering.eq
  | k :: t =>
      match fieldCmp k p q with
      | Ordering.eq => keysCmp fieldCmp t p q
      | o => o

/-- Sort rows by ordering keys (a leading `-` requests descending). -/
def sortByKeys (fieldCmp : String → α → α → Ordering) (ks : List String)
    (l : List α) : List α :=
  sortLe (fun p q =>
    match keysCmp fieldCmp ks p q with
    | Ordering.gt => false
    | _ => true) l

/-- `CustomerFilter`'s `OrderingFilter` fields: name, email, created_at. -/
def customerFieldCmp (k : String) (p q : Customer) : Ordering :=
  if k = "name" then compare p.name q.name
  else if k = "-name" then (compare p.name q.name).swap
  else if k = "email" then compare p.email q.email
  else if k = "-email" then (compare p.email q.email).swap
  else if k = "created_at" then compare p.created_at q.created_at
  else if k = "-created_at" then (compare p.created_at q.created_at).swap
  else Ordering.eq

/-- `ProductFilter`'s `OrderingFilter` fields: name, price, stock. -/
def productFieldCmp (k : String) (p q : Product) : Ordering :=
  if k = "name" then compare p.name q.name
  else if k = "-name" then (compare p.name q.name).swap
  else if k = "price" then compare p.price q.price
  else if k = "-price" then (compare p.price q.price).swap
  else if k = "stock" then compare p.stock q.stock
  else if k = "-stock" then (compare p.stock q.stock).swap
  else Ordering.eq

/-- `OrderFilter`'s `OrderingFilter` fields: order_date. -/
def orderFieldCmp (k : String) (p q : Order) : Ordering :=
  if k = "order_date" then compare p.order_date q.order_date
  else if k = "-order_date" then (compare p.order_date q.order_date).swap
  else Ordering.eq

/-- The declared criteria of `CustomerFilter` (`crm/filters.py` lines 7-44),
one `Option` field per filter; `none` = criterion not supplied. -/
structure CustomerFilterSpec where
  name : Option String := none
  email : Option String := none
  createdAtGte : Option Nat := none
  createdAtLte : Option Nat := none
  phonePattern : Option String := none
  orderBy : Option (List String) := none
deriving Repr, DecidableEq

/-- Apply `CustomerFilter`: each supplied criterion restricts the queryset
(logical AND), then the ordering criterion sorts it.
`filter_phone_pattern` returns the queryset unchanged on a falsy value and
otherwise keeps rows whose phone starts with the value (a NULL phone never
matches a `startswith` lookup). -/
def applyCustomerFilter (spec : CustomerFilterSpec) (cs : List Customer) :
    List Customer :=
  let r := cs.filter (fun c =>
    (match spec.name with
     | none => true
     | some v => icontains c.name v) &&
    (match spec.email with
     | none => true
     | some v => icontains c.email v) &&
    (match spec.createdAtGte with
     | none => true
     | some v => decide (v ≤ c.created_at)) &&
    (match spec.createdAtLte with
     | none => true
     | some v => decide (c.created_at ≤ v)) &&
    (match spec.phonePattern with
     | none => true
     | some v =>
        if v = "" then true
        else match c.phone with
          | none => false
          | some ph => startsWithLookup ph v))
  match spec.orderBy with
  | none => r
  | some ks => sortByKeys customerFieldCmp ks r

/-- The declared criteria of `ProductFilter` (`crm/filters.py` lines 47-79). -/
structure ProductFilterSpec where
  name : Option String := none
  priceGte : Option Int := none
  priceLte : Option Int := none
  stockGte : Option Int := none
  stockLte : Option Int := none
  lowStock : Option Bool := none
  orderBy : Option (List String) := none
deriving Repr, DecidableEq

/-- Apply `ProductFilter`: range lookups on price and stock, `icontains` on
name, `filter_low_stock` restricting to `stock < 10` only when the value is
truthy, then ordering. -/
def applyProductFilter (spec : ProductFilterSpec) (ps : List Product) :
    List Product :=
  let r := ps.filter (fun p =>
    (match spec.name with
     | none => true
     | some v => icontains p.name v) &&
    (match spec.priceGte with
     | none => true
     | some v => decide (v ≤ p.price)) &&
    (match spec.priceLte with
     | none => true
     | some v => decide (p.price ≤ v)) &&
    (match spec.stockGte with
     | none => true
     | some v => decide (v ≤ p.stock)) &&
    (match spec.stockLte with
     | none => true
     | some v => decide (p.stock ≤ v)) &&
    (match spec.lowStock with
     | some true => decide (p.stock < (10 : Int))
     | _ => true))
  match spec.orderBy with
  | none => r
  | some ks => sortByKeys productFieldCmp ks r

/-- Field names of the `Order` model, as Django's
`model._meta.get_fields()` reports them: the annotation-conflict check of
`QuerySet.annotate` compares the annotation alias against this set. -/
def orderFieldNames : List String :=
  ["id", "customer", "products", "total_amount", "order_date"]

/-- `OrderFilter._annotate_total`'s intended per-order aggregate:
`Sum("products__price")` over the order's association rows; `none` models
the SQL `NULL` sum of an order with no associated products (a `NULL`
aggregate satisfies neither bound). -/
def annotatedTotal (db : DB) (o : Order) : Option Int :=
  let ps := db.products.filter (fun p => o.productIds.contains p.id)
  if ps.isEmpty then none else some ((ps.map Product.price).sum)

def annotationConflictMsg : String :=
  "The annotation total_amount conflicts with a field on the model."

/-- `OrderFilter.filter_total_amount_gte` (`crm/filters.py` lines 106-110):
`queryset.annotate(total_amount=Sum("products__price"))` then a `gte`
filter on the annotation.  Django's `QuerySet.annotate` rejects an
annotation alias that collides with a model field name by raising
`ValueError`, and the alias `total_amount` is an `Order` field, so the
call raises instead of filtering; the intended comparison is kept in the
unreachable branch. -/
def filterTotalAmountGte (db : DB) (v : Int) (os : List Order) :
    Except String (List Order) :=
  if orderFieldNames.contains "total_amount" then
    Except.error annotationConflictMsg
  else
    Except.ok (os.filter (fun o =>
      match annotatedTotal db o with
      | none => false
      | some t => decide (v ≤ t)))

/-- `OrderFilter.filter_total_amount_lte` (`crm/filters.py` lines 112-116),
same annotation-conflict behaviour as the `gte` variant. -/
def filterTotalAmountLte (db : DB) (v : Int) (os : List Order) :
    Except String (List Order) :=
  if orderFieldNames.contains "total_amount" then
    Except.error annotationConflictMsg
  else
    Except.ok (os.filter (fun o =>
      match annotatedTotal db o with
      | none => false
      | some t => decide (t ≤ v)))

/-- The declared criteria of `OrderFilter` (`crm/filters.py` lines 82-134). -/
structure OrderFilterSpec where
  orderDateGte : Option Nat := none
  orderDateLte : Option Nat := none
  customerName : Option String := none
  productName : Option String := none
  productId : Option Nat := none
  totalAmountGte : Option Int := none
  totalAmountLte : Option Int := none
  orderBy : Option (List String) := none
deriving Repr, DecidableEq

/-- Apply `OrderFilter`: the plain lookups combine as one AND-predicate
(`customer_name` joins the owning customer, `product_name` and
`product_id` join the association rows; the join-row duplication a bare
SQL M2M join can produce is not modelled, which also makes `distinct()` in
`filter_product_id` the identity), then the two total-amount filters run —
raising as described at `filterTotalAmountGte` — then the ordering. -/
def applyOrderFilter (db : DB) (spec : OrderFilterSpec) (os : List Order) :
    Except String (List Order) := do
  let r1 := os.filter (fun o =>
    (match spec.orderDateGte with
     | none => true
     | some v => decide (v ≤ o.order_date)) &&
    (match spec.orderDateLte with
     | none => true
     | some v => decide (o.order_date ≤ v)) &&
    (match spec.customerName with
     | none => true
     | some v =>
        match db.customers.find? (fun c => c.id == o.customerId) with
        | none => false
        | some c => icontains c.name v) &&
    (match spec.productName with
     | none => true
     | some v =>
        (db.products.filter (fun p => o.productIds.contains p.id)).any
          (fun p => icontains p.name v)) &&
    (match spec.productId with
     | none => true
     | some v => o.productIds.contains v))
  let r2 ← match spec.totalAmountGte with
    | none => pure r1
    | some v => filterTotalAmountGte db v r1
  let r3 ← match spec.totalAmountLte with
    | none => pure r2
    | some v => filterTotalAmountLte db v r2
  pure (match spec.orderBy with
    | none => r3
    | some ks => sortByKeys orderFieldCmp ks r3)

/-! ### Query-service boundary

The enumerated criterion names come from the `Meta.fields` lists of the
three `FilterSet` classes in `crm/filters.py`.  The boundary that checks an
incoming specification against them is realized in the repository by the
argument layer generated from those lists, which is not part of `src/`, so
it is modelled from the spec below. -/

/-- A value supplied for one filter criterion. -/
inductive FilterVal where
  | str (s : String)
  | int (n : Int)
  | nat (n : Nat)
  | bool (b : Bool)
  | strs (l : List String)
deriving Repr, DecidableEq

/-- `CustomerFilter.Meta.fields` (`crm/filters.py` lines 35-44). -/
def customerFilterKeys : List String :=
  ["name", "email", "created_at__gte", "created_at__lte", "phone_pattern",
   "order_by"]

/-- `ProductFilter.Meta.fields` (`crm/filters.py` lines 69-79). -/
def productFilterKeys : List String :=
  ["name", "price__gte", "price__lte", "stock__gte", "stock__lte",
   "low_stock", "order_by"]

/-- `OrderFilter.Meta.fields` (`crm/filters.py` lines 123-134). -/
def orderFilterKeys : List String :=
  ["order_date__gte", "order_date__lte", "customer_name", "product_name",
   "product_id", "total_amount__gte", "total_amount__lte", "order_by"]

/-- Modelled from the spec: the Filter Engine rejects a specification whose
criterion names are not all in the enumerated set for the entity type; this
returns the first offending name. -/
def findUnknownKey (allowed : List String) (spec : List (String × FilterVal)) :
    Option String :=
  (spec.map Prod.fst).find? (fun k => !allowed.contains k)

/-- An ordering entry must name an allowed field, optionally prefixed by
`-` for descending. -/
def validOrderKey (choices : List String) (k : String) : Bool :=
  choices.contains k || (k.startsWith "-" && choices.contains (k.drop 1))

/-- Outcome of a filtered query: rejected at the boundary with the
offending criterion name (`InvalidFilterError`), failed while executing,
or a result list. -/
inductive QueryOutcome (α : Type) where
  | invalidFilter (key : String)
  | runtimeError (msg : String)
  | ok (results : List α)
deriving Repr, DecidableEq

/-- Interpret checked customer criteria into a `CustomerFilterSpec`;
a value of the wrong shape for its criterion is a malformed bound, reported
by its key. -/
def parseCustomerSpec : List (String × FilterVal) →
    Except String CustomerFilterSpec
  | [] => Except.ok {}
  | (k, v) :: rest => do
      let s ← parseCustomerSpec rest
      if k = "name" then
        match v with
        | FilterVal.str x => Except.ok { s with name := some x }
        | _ => Except.error k
      else if k = "email" then
        match v with
        | FilterVal.str x => Except.ok { s with email := some x }
        | _ => Except.error k
      else if k = "created_at__gte" then
        match v with
        | FilterVal.nat n => Except.ok { s with createdAtGte := some n }
        | _ => Except.error k
      else if k = "created_at__lte" then
        match v with
        | FilterVal.nat n => Except.ok { s with createdAtLte := some n }
        | _ => Except.error k
      else if k = "phone_pattern" then
        match v with
        | FilterVal.str x => Except.ok { s with phonePattern := some x }
        | _ => Except.error k
      else if k = "order_by" then
        match v with
        | FilterVal.strs l =>
            if l.all (validOrderKey ["name", "email", "created_at"]) then
              Except.ok { s with orderBy := some l }
            else Except.error k
        | _ => Except.error k
      else Except.error k

/-- Interpret checked product criteria into a `ProductFilterSpec`. -/
def parseProductSpec : List (String × FilterVal) →
    Except String ProductFilterSpec
  | [] => Except.ok {}
  | (k, v) :: rest => do
      let s ← parseProductSpec rest
      if k = "name" then
        match v with
        | FilterVal.str x => Except.ok { s with name := some x }
        | _ => Except.error k
      else if k = "price__gte" then
        match v with
        | FilterVal.int n => Except.ok { s with priceGte := some n }
        | _ => Except.error k
      else if k = "price__lte" then
        match v with
        | FilterVal.int n => Except.ok { s with priceLte := some n }
        | _ => Except.error k
      else if k = "stock__gte" then
        match v with
        | FilterVal.int n => Except.ok { s with stockGte := some n }
        | _ => Except.error k
      else if k = "stock__lte" then
        match v with
        | FilterVal.int n => Except.ok { s with stockLte := some n }
        | _ => Except.error k
      else if k = "low_stock" then
        match v with
        | FilterVal.bool b => Except.ok { s with lowStock := some b }
        | _ => Except.error k
      else if k = "order_by" then
        match v with
        | FilterVal.strs l =>
            if l.all (validOrderKey ["name", "price", "stock"]) then
              Except.ok { s with orderBy := some l }
            else Except.error k
        | _ => Except.error k
      else Except.error k

/-- Interpret checked order criteria into an `OrderFilterSpec`. -/
def parseOrderSpec : List (String × FilterVal) →
    Except String OrderFilterSpec
  | [] => Except.ok {}
  | (k, v) :: rest => do
      let s ← parseOrderSpec rest
      if k = "order_date__gte" then
        match v with
        | FilterVal.nat n => Except.ok { s with orderDateGte := some n }
        | _ => Except.error k
      else if k = "order_date__lte" then
        match v with
        | FilterVal.nat n => Except.ok { s with orderDateLte := some n }
        | _ => Except.error k
      else if k = "customer_name" then
        match v with
        | FilterVal.str x => Except.ok { s with customerName := some x }
        | _ => Except.error k
      else if k = "product_name" then
        match v with
        | FilterVal.str x => Except.ok { s with productName := some x }
        | _ => Except.error k
      else if k = "product_id" then
        match v with
        | FilterVal.nat n => Except.ok { s with productId := some n }
        | _ => Except.error k
      else if k = "total_amount__gte" then
        match v with
        | FilterVal.int n => Except.ok { s with totalAmountGte := some n }
        | _ => Except.error k
      else if k = "total_amount__lte" then
        match v with
        | FilterVal.int n => Except.ok { s with totalAmountLte := some n }
        | _ => Except.error k
      else if k = "order_by" then
        match v with
        | FilterVal.strs l =>
            if l.all (validOrderKey ["order_date"]) then
              Except.ok { s with orderBy := some l }
            else Except.error k
        | _ => Except.error k
      else Except.error k

/-- Modelled from the spec: the customer query path — reject unknown
criterion names, then malformed bounds, then apply the filter. -/
def queryCustomers (spec : List (String × FilterVal)) (cs : List Customer) :
    QueryOutcome Customer :=
  match findUnknownKey customerFilterKeys spec with
  | some k => QueryOutcome.invalidFilter k
  | none =>
      match parseCustomerSpec spec with
      | Except.error k => QueryOutcome.invalidFilter k
      | Except.ok s => QueryOutcome.ok (applyCustomerFilter s cs)

/-- Modelled from the spec: the product query path. -/
def queryProducts (spec : List (String × FilterVal)) (ps : List Product) :
    QueryOutcome Product :=
  match findUnknownKey productFilterKeys spec with
  | some k => QueryOutcome.invalidFilter k
  | none =>
      match parseProductSpec spec with
      | Except.error k => QueryOutcome.invalidFilter k
      | Except.ok s => QueryOutcome.ok (applyProductFilter s ps)

/-- Modelled from the spec: the order query path; an execution failure
(the total-amount annotation conflict) surfaces as a runtime error. -/
def queryOrders (db : DB) (spec : List (String × FilterVal)) :
    QueryOutcome Order :=
  match findUnknownKey orderFilterKeys spec with
  | some k => QueryOutcome.invalidFilter k
  | none =>
      match parseOrderSpec spec with
      | Except.error k => QueryOutcome.invalidFilter k
      | Except.ok s =>
          match applyOrderFilter db s db.orders with
          | Except.error msg => QueryOutcome.runtimeError msg
          | Except.ok r => QueryOutcome.ok r

/-! ### Predicates and concrete fixtures used by the theorems -/

/-- Some customer row has this primary key. -/
abbrev customerExists (db : DB) (cid : Nat) : Prop :=
  ∃ c ∈ db.customers, c.id = cid

/-- Some product row has this primary key. -/
abbrev productExists (db : DB) (pid : Nat) : Prop :=
  ∃ p ∈ db.products, p.id = pid

/-- No stored customer already uses this email. -/
abbrev customerEmailFree (db : DB) (email : String) : Prop :=
  ∀ c ∈ db.customers, c.email ≠ email

def exCust : Customer :=
  { id := 1, name := "Alice", email := "alice@x.com", phone := none,
    created_at := 0 }

def exProd1 : Product :=
  { id := 1, name := "Widget", price := 450, description := none, stock := 5 }

def exProd2 : Product :=
  { id := 2, name := "Gadget", price := 750, description := none, stock := 12 }

def exDB : DB :=
  { customers := [exCust], products := [exProd1, exProd2], orders := [] }

/-! ### Helper lemmas about product resolution in `createOrder` -/

lemma mem_resolvedProducts {db : DB} {pids : List Nat} {p : Product} :
    p ∈ db.products.filter (fun q => pids.contains q.id) ↔
      p ∈ db.products ∧ p.id ∈ pids := by
  simp [List.mem_filter]

lemma resolvedIds_nodup (db : DB) (pids : List Nat)
    (hnd : (db.products.map Product.id).Nodup) :
    ((db.products.filter (fun q => pids.contains q.id)).map Product.id).Nodup :=
  hnd.sublist (List.Sublist.map _ (List.filter_sublist _))

lemma mem_resolvedIds {db : DB} {pids : List Nat}
    (hall : ∀ pid ∈ pids, productExists db pid) (x : Nat) :
    x ∈ (db.products.filter (fun q => pids.contains q.id)).map Product.id ↔
      x ∈ pids := by
  constructor
  · intro hx
    obtain ⟨p, hp, rfl⟩ := List.mem_map.mp hx
    exact (mem_resolvedProducts.mp hp).2
  · intro hx
    obtain ⟨p, hp, hid⟩ := hall x hx
    exact List.mem_map.mpr ⟨p, mem_resolvedProducts.mpr ⟨hp, hid ▸ hx⟩, hid⟩

lemma resolved_length (db : DB) (pids : List Nat)
    (hnd : (db.products.map Product.id).Nodup)
    (hall : ∀ pid ∈ pids, productExists db pid) :
    (db.products.filter (fun q => pids.contains q.id)).length =
      pids.dedup.length := by
  have h1 := resolvedIds_nodup db pids hnd
  have hperm :=
    (List.perm_ext_iff_of_nodup h1 pids.nodup_dedup).mpr (fun a => by
      rw [mem_resolvedIds hall a, List.mem_dedup])
  simpa using hperm.length_eq

lemma dedup_length_lt {pids : List Nat} (h : ¬ pids.Nodup) :
    pids.dedup.length < pids.length := by
  rcases Nat.lt_or_ge pids.dedup.length pids.length with h1 | h1
  · exact h1
  · exact absurd (pids.dedup_sublist.eq_of_length
      (Nat.le_antisymm pids.dedup_sublist.length_le h1) ▸ pids.nodup_dedup) h

lemma resolved_length_lt (db : DB) (pids : List Nat) (pid0 : Nat)
    (hnd : (db.products.map Product.id).Nodup)
    (h0 : pid0 ∈ pids) (hmiss : ¬ productExists db pid0) :
    (db.products.filter (fun q => pids.contains q.id)).length < pids.length := by
  have hlnd := resolvedIds_nodup db pids hnd
  have hsub : ((db.products.filter (fun q => pids.contains q.id)).map
      Product.id).toFinset ⊆ pids.dedup.toFinset := by
    intro x hx
    rw [List.mem_toFinset] at hx
    obtain ⟨p, hp, rfl⟩ := List.mem_map.mp hx
    rw [List.mem_toFinset, List.mem_dedup]
    exact (mem_resolvedProducts.mp hp).2
  have hx0 : pid0 ∉ ((db.products.filter (fun q => pids.contains q.id)).map
      Product.id).toFinset := by
    rw [List.mem_toFinset]
    intro hx
    obtain ⟨p, hp, hid⟩ := List.mem_map.mp hx
    exact hmiss ⟨p, (mem_resolvedProducts.mp hp).1, hid⟩
  have hss := (Finset.ssubset_iff_of_subset hsub).mpr
    ⟨pid0, by rw [List.mem_toFinset, List.mem_dedup]; exact h0, hx0⟩
  have hcard := Finset.card_lt_card hss
  rw [List.toFinset_card_of_nodup hlnd,
    List.toFinset_card_of_nodup pids.nodup_dedup, List.length_map] at hcard
  exact Nat.lt_of_lt_of_le hcard pids.dedup_sublist.length_le

lemma find?_customer_of_exists {db : DB} {cid : Nat}
    (hc : customerExists db cid) :
    ∃ c, db.customers.find? (fun c => c.id == cid) = some c ∧ c.id = cid := by
  obtain ⟨c0, hc0, hid⟩ := hc
  have hsome : (db.customers.find? (fun c => c.id == cid)).isSome := by
    rw [List.find?_isSome]
    exact ⟨c0, hc0, by simpa using hid⟩
  obtain ⟨c, hfind⟩ := Option.isSome_iff_exists.mp hsome
  exact ⟨c, hfind, by simpa using List.find?_some hfind⟩

/-- **C9**: `createOrder` with a duplicated (but existing) product id fails:
the de-duplicating `id__in` resolution returns fewer rows than the input
list has entries, the set difference of invalid ids is empty, and no order
is persisted. -/
theorem createOrder_duplicate_ids_rejected
    (db : DB) (now cid : Nat) (pids : List Nat) (od : Option Nat)
    (hnd : (db.products.map Product.id).Nodup)
    (hc : customerExists db cid)
    (hall : ∀ pid ∈ pids, productExists db pid)
    (hdup : ¬ pids.Nodup) :
    (createOrder db now cid pids od).1 = db ∧
    (createOrder db now cid pids od).2.1 = none ∧
    (createOrder db now cid pids od).2.2 =
      [OrderError.invalidProductIds []] := by
  obtain ⟨c, hfind, hcid⟩ := find?_customer_of_exists hc
  have hlen : (db.products.filter (fun q => pids.contains q.id)).length ≠
      pids.length := by
    rw [resolved_length db pids hnd hall]
    exact Nat.ne_of_lt (dedup_length_lt hdup)
  have hinv : pids.filter (fun pid =>
      !(db.products.filter (fun q => pids.contains q.id)).any
        (fun p => p.id == pid)) = [] := by
    rw [List.filter_eq_nil_iff]
    intro pid hpid
    obtain ⟨p, hp, hid⟩ := hall pid hpid
    simp only [Bool.not_eq_true', Bool.not_eq_false, List.any_eq_true,
      mem_resolvedProducts]
    exact ⟨p, ⟨hp, hid ▸ hpid⟩, by simpa using hid⟩
  simp only [createOrder, hfind, if_pos hlen, hinv, List.dedup_nil]
  exact ⟨trivial, trivial, trivial⟩

/-- Witness instantiating `createOrder_duplicate_ids_rejected` at a concrete
store and the duplicated id list `[1, 1]`. -/
theorem createOrder_duplicate_ids_rejected_witness :
    (createOrder exDB 99 1 [1, 1] none).2.1 = none ∧
    (createOrder exDB 99 1 [1, 1] none).2.2 =
      [OrderError.invalidProductIds []] :=
  (createOrder_duplicate_ids_rejected exDB 99 1 [1, 1] none (by decide)
    (by decide) (by decide) (by decide)).2

/-- **C2, counterexample**: with one existing product and `productIds =
[1, 1]` — a non-empty list every entry of which resolves — `createOrder`
persists nothing and returns an error, so the claim as stated (which does
not require distinct ids) is false. -/
theorem createOrder_valid_ids_cex :
    customerExists exDB 1 ∧ productExists exDB 1 ∧
    ([1, 1] : List Nat) ≠ [] ∧
    (createOrder exDB 99 1 [1, 1] none).1 = exDB ∧
    (createOrder exDB 99 1 [1, 1] none).2.1 = none := by decide

/-- **C2, amended**: for a `createOrder` call with an existing customer and
a non-empty list of *pairwise-distinct* product ids that all resolve, the
call appends exactly one order, associated with exactly those products,
with `total_amount` the sum of the current prices of the resolved
products, `order_date` the supplied value or the current time, and returns
that order. -/
theorem createOrder_valid_distinct_creates
    (db : DB) (now cid : Nat) (pids : List Nat) (od : Option Nat)
    (hnd : (db.products.map Product.id).Nodup)
    (hc : customerExists db cid)
    (hne : pids ≠ [])
    (hpnd : pids.Nodup)
    (hall : ∀ pid ∈ pids, productExists db pid) :
    ∃ o : Order,
      (createOrder db now cid pids od).1.orders = db.orders ++ [o] ∧
      (createOrder db now cid pids od).1.customers = db.customers ∧
      (createOrder db now cid pids od).1.products = db.products ∧
      (createOrder db now cid pids od).2.1 = some o ∧
      (createOrder db now cid pids od).2.2 = [] ∧
      o.customerId = cid ∧
      (∀ x, x ∈ o.productIds ↔ x ∈ pids) ∧
      o.total_amount =
        ((db.products.filter (fun q => pids.contains q.id)).map
          Product.price).sum ∧
      o.order_date = od.getD now := by
  obtain ⟨c, hfind, hcid⟩ := find?_customer_of_exists hc
  have hlen : (db.products.filter (fun q => pids.contains q.id)).length =
      pids.length := by
    rw [resolved_length db pids hnd hall, List.dedup_eq_self.mpr hpnd]
  have hneNil : db.products.filter (fun q => pids.contains q.id) ≠ [] := by
    obtain ⟨pid, hpid⟩ := List.exists_mem_of_ne_nil pids hne
    obtain ⟨p, hp, hid⟩ := hall pid hpid
    exact List.ne_nil_of_mem (mem_resolvedProducts.mpr ⟨hp, hid ▸ hpid⟩)
  have hempty : ¬ (db.products.filter (fun q => pids.contains q.id)).isEmpty
      = true := by
    simpa [List.isEmpty_iff] using hneNil
  simp only [createOrder, hfind, if_neg (not_ne_iff.mpr hlen), if_neg hempty]
  exact ⟨_, rfl, trivial, trivial, rfl, trivial, hcid,
    fun x => mem_resolvedIds hall x, rfl, rfl⟩

/-- Witness instantiating `createOrder_valid_distinct_creates` on a concrete
store with two products. -/
theorem createOrder_valid_distinct_creates_witness :
    ∃ o : Order, (createOrder exDB 99 1 [1, 2] none).1.orders = [o] ∧
      (createOrder exDB 99 1 [1, 2] none).2.1 = some o := by
  obtain ⟨o, h1, _, _, h4, _⟩ := createOrder_valid_distinct_creates exDB 99 1
    [1, 2] none (by decide) (by decide) (by decide) (by decide) (by decide)
  exact ⟨o, by simpa [exDB] using h1, h4⟩

/-- **C1**: a `createOrder` call whose customer id does not resolve, whose
product-id list is empty, or whose product-id list contains an id that
does not resolve, leaves the store unchanged (no order, no association),
returns no order and a non-empty error list; and whenever the customer
resolves and some product id does not, the single returned error carries
exactly the set of unresolved input ids. -/
theorem createOrder_invalid_input_rejected
    (db : DB) (now cid : Nat) (pids : List Nat) (od : Option Nat)
    (hnd : (db.products.map Product.id).Nodup)
    (hbad : ¬ customerExists db cid ∨ pids = [] ∨
      ∃ pid ∈ pids, ¬ productExists db pid) :
    (createOrder db now cid pids od).1 = db ∧
    (createOrder db now cid pids od).2.1 = none ∧
    (createOrder db now cid pids od).2.2 ≠ [] ∧
    (customerExists db cid →
      ∀ pid ∈ pids, ¬ productExists db pid →
        ∃ l, (createOrder db now cid pids od).2.2 =
            [OrderError.invalidProductIds l] ∧
          ∀ x, x ∈ l ↔ x ∈ pids ∧ ¬ productExists db x) := by
  cases hfind : db.customers.find? (fun c => c.id == cid) with
  | none =>
      have hnoc : ¬ customerExists db cid := by
        intro ⟨c0, hc0, hid⟩
        have := List.find?_eq_none.mp hfind c0 hc0
        simp [hid] at this
      simp only [createOrder, hfind]
      exact ⟨trivial, trivial, by simp, fun hc => absurd hc hnoc⟩
  | some c =>
      have hc : customerExists db cid :=
        ⟨c, List.mem_of_find?_eq_some hfind,
          by simpa using List.find?_some hfind⟩
      rcases hbad with hnoc | hnil | ⟨pid0, hpid0, hmiss⟩
      · exact absurd hc hnoc
      · subst hnil
        have h1 : ¬ ((db.products.filter
            (fun q => ([] : List Nat).contains q.id)).length ≠
              ([] : List Nat).length) := by simp
        have h2 : (db.products.filter
            (fun q => ([] : List Nat).contains q.id)).isEmpty = true := by simp
        simp only [createOrder, hfind, if_neg h1, if_pos h2]
        refine ⟨trivial, trivial, by simp,
          fun _ pid hpid _ => absurd hpid (by simp)⟩
      · have hlen : (db.products.filter
            (fun q => pids.contains q.id)).length ≠ pids.length :=
          Nat.ne_of_lt (resolved_length_lt db pids pid0 hnd hpid0 hmiss)
        simp only [createOrder, hfind, if_pos hlen]
        refine ⟨trivial, trivial, by simp, fun _ pid hpid hpmiss => ⟨_, rfl, ?_⟩⟩
        intro x
        simp only [List.mem_dedup, List.mem_filter]
        constructor
        · rintro ⟨hx, hnot⟩
          refine ⟨hx, ?_⟩
          rintro ⟨p, hp, hid⟩
          have hany : (db.products.filter (fun q => pids.contains q.id)).any
              (fun p => p.id == x) = true :=
            List.any_eq_true.mpr
              ⟨p, mem_resolvedProducts.mpr ⟨hp, hid ▸ hx⟩, by simpa using hid⟩
          rw [Bool.not_eq_true', hany] at hnot
          simp at hnot
        · rintro ⟨hx, hnores⟩
          refine ⟨hx, ?_⟩
          simp only [Bool.not_eq_true', List.any_eq_false]
          intro p hp
          have hpm := mem_resolvedProducts.mp hp
          intro hbeq
          exact hnores ⟨p, hpm.1, by simpa using hbeq⟩

/-- Witness instantiating `createOrder_invalid_input_rejected` with an
unresolvable product id among resolvable ones. -/
theorem createOrder_invalid_input_rejected_witness :
    (createOrder exDB 99 1 [1, 7] none).1 = exDB ∧
    (createOrder exDB 99 1 [1, 7] none).2.1 = none :=
  have h := createOrder_invalid_input_rejected exDB 99 1 [1, 7] none
    (by decide) (Or.inr (Or.inr ⟨7, by decide, by decide⟩))
  ⟨h.1, h.2.1⟩

lemma isDashPhone_length {l : List Char} (h : isDashPhone l = true) :
    l.length = 12 := by
  unfold isDashPhone at h
  split at h
  · simp
  · cases h

lemma phoneValid_length_le {s : String} (h : phoneValid s = true) :
    s.length ≤ 20 := by
  have hlen : s.length = s.toList.length := rfl
  unfold phoneValid at h
  rw [Bool.or_eq_true] at h
  rw [hlen]
  rcases h with h | h
  · split at h
    · rename_i ds heq
      rw [heq]
      simp only [Bool.and_eq_true, decide_eq_true_eq] at h
      simp only [List.length_cons]
      omega
    · cases h
  · rw [isDashPhone_length h]
    omega

lemma emailTaken_false_of_free {db : DB} {email : String}
    (hfree : customerEmailFree db email) : emailTaken db email = false := by
  rw [emailTaken, List.any_eq_false]
  intro c hc
  simpa using hfree c hc

/-- **C4**: two `createCustomer` calls with the same (otherwise valid)
email: the first persists exactly one row and returns it, the second
returns the duplicate-email error and writes nothing, and email
uniqueness of the store is preserved. -/
theorem createCustomer_duplicate_email_conflict
    (db : DB) (now now2 : Nat) (nm nm2 email : String)
    (phone phone2 : Option String)
    (hn : nm ≠ "") (hnlen : nm.length ≤ 255)
    (he : emailValid email = true) (helen : email.length ≤ 254)
    (hfree : customerEmailFree db email)
    (hp : phoneTruthy phone = true → phoneValid (phone.getD "") = true) :
    ∃ c : Customer,
      (createCustomer db now nm email phone).2.1 = some c ∧
      c.email = email ∧
      (createCustomer db now nm email phone).1.customers
        = db.customers ++ [c] ∧
      (createCustomer db now nm email phone).2.2 = [] ∧
      (createCustomer (createCustomer db now nm email phone).1 now2 nm2 email
          phone2).1 = (createCustomer db now nm email phone).1 ∧
      (createCustomer (createCustomer db now nm email phone).1 now2 nm2 email
          phone2).2.1 = none ∧
      (createCustomer (createCustomer db now nm email phone).1 now2 nm2 email
          phone2).2.2 = [CustomerError.emailExists email] ∧
      ((db.customers.map Customer.email).Nodup →
        ((createCustomer db now nm email phone).1.customers.map
          Customer.email).Nodup) := by
  have hem : emailTaken db email = false := emailTaken_false_of_free hfree
  have hpc : (phoneTruthy phone && !phoneValid (phone.getD "")) = false := by
    cases hpt : phoneTruthy phone
    · simp
    · simp [hp hpt]
  have hemail_ne : email ≠ "" := by
    intro h
    rw [h] at he
    exact absurd he (by decide)
  have hplen : (phone.getD "").length ≤ 20 := by
    cases hpt : phoneTruthy phone
    · have heq : phone.getD "" = "" := by
        have := hpt
        rw [phoneTruthy] at this
        simpa using this
      simp [heq]
    · exact Nat.le_trans (phoneValid_length_le (hp hpt)) (by omega)
  have hfc : fullCleanCustomer db nm email phone = [] := by
    rw [fullCleanCustomer, if_neg hn, if_neg (Nat.not_lt.mpr hnlen),
      if_neg hemail_ne, if_neg (Nat.not_lt.mpr helen), if_pos he,
      if_neg (Nat.not_lt.mpr hplen), hem]
    simp
  have h1 : createCustomer db now nm email phone =
      ({ db with customers := db.customers ++
          [{ id := freshCustomerId db, name := nm, email := email,
             phone := phone, created_at := now }] },
        some { id := freshCustomerId db, name := nm, email := email,
               phone := phone, created_at := now }, []) := by
    rw [createCustomer, tryCreateCustomer, hem, hpc, hfc]
    simp
  have hem2 : emailTaken (createCustomer db now nm email phone).1 email
      = true := by
    rw [h1, emailTaken, List.any_eq_true]
    exact ⟨_, List.mem_append_right _ (List.mem_singleton_self _), by simp⟩
  have h2 : createCustomer (createCustomer db now nm email phone).1 now2 nm2
      email phone2 = ((createCustomer db now nm email phone).1, none,
        [CustomerError.emailExists email]) := by
    rw [createCustomer, tryCreateCustomer, hem2]
    simp
  refine ⟨_, by rw [h1], rfl, by rw [h1], by rw [h1], by rw [h2],
    by rw [h2], by rw [h2], ?_⟩
  intro hnd
  rw [h1]
  simp only [List.map_append, List.map_cons, List.map_nil]
  rw [List.nodup_append]
  refine ⟨hnd, List.nodup_singleton _, ?_⟩
  intro x hx
  simp only [List.mem_singleton]
  obtain ⟨c0, hc0, rfl⟩ := List.mem_map.mp hx
  intro hxe
  exact hfree c0 hc0 hxe

/-- Witness instantiating `createCustomer_duplicate_email_conflict` on an
empty store. -/
theorem createCustomer_duplicate_email_conflict_witness :
    ∃ c : Customer,
      (createCustomer emptyDB 0 "A" "a@x.com" none).2.1 = some c ∧
      (createCustomer (createCustomer emptyDB 0 "A" "a@x.com" none).1 1 "B"
        "a@x.com" none).2.2 = [CustomerError.emailExists "a@x.com"] := by
  obtain ⟨c, hc1, _, _, _, _, _, hc7, _⟩ :=
    createCustomer_duplicate_email_conflict emptyDB 0 1 "A" "B" "a@x.com"
      none none (by decide) (by decide) (by decide) (by decide)
      (fun c hc => by simp [emptyDB] at hc) (by simp [phoneTruthy])
  exact ⟨c, hc1, hc7⟩

lemma tryCreateCustomer_customers (db : DB) (now : Nat) (nm em : String)
    (ph : Option String) :
    (tryCreateCustomer db now nm em ph).1.customers
      = db.customers ++ ((tryCreateCustomer db now nm em ph).2.1).toList := by
  rw [tryCreateCustomer]
  split
  · simp
  · split
    · simp
    · split
      · simp
      · simp

/-- The batch input of the claim's concrete scenario. -/
def c3Input : List CustomerInput :=
  [{ name := "A", email := "a@x.com" },
   { name := "", email := "b@x.com" },
   { name := "C", email := "a@x.com" }]

/-- **C3, amended**: `bulkCreateCustomers` processes rows independently —
no row ever removes previously committed rows (the final customer table is
the initial table plus exactly the returned created rows, for every input),
the duplicate check sees rows committed earlier in the same call, and on
the claim's example input exactly one customer ("A") is committed and
exactly two error entries are returned (blank name; duplicate email) — but
the error entries are flat messages in input order, not entries indexed by
input position. -/
theorem bulkCreateCustomers_partial_success :
    (∀ (db : DB) (now : Nat) (input : List CustomerInput),
      (bulkCreateCustomers db now input).1.customers
        = db.customers ++ (bulkCreateCustomers db now input).2.1) ∧
    (bulkCreateCustomers emptyDB 0 c3Input).2.1.map Customer.name = ["A"] ∧
    (bulkCreateCustomers emptyDB 0 c3Input).2.2 =
      [CustomerError.blankName, CustomerError.emailExists "a@x.com"] := by
  refine ⟨?_, by decide, by decide⟩
  intro db now input
  induction input generalizing db with
  | nil => simp [bulkCreateCustomers]
  | cons data rest ih =>
      simp only [bulkCreateCustomers]
      rw [ih, tryCreateCustomer_customers, List.append_assoc]

/-- **C3, counterexample**: a single input row failing two field
validations (blank name, blank email) is skipped but contributes two error
entries, so the errors are not one per-row message indexed by input
position — one invalid row, two entries, and neither entry determines the
row. -/
theorem bulkCreateCustomers_not_position_indexed :
    (bulkCreateCustomers emptyDB 0 [{ name := "", email := "" }]).2.1
      = [] ∧
    (bulkCreateCustomers emptyDB 0
      [{ name := "", email := "" }]).2.2.length = 2 := by decide

/-- **C5**: `updateLowStockProducts` selects exactly the products with
stock strictly below 10, increments each selected product's stock by
exactly 10, returns the full updated list with a count-and-timestamp
message when at least one was updated and the "none found" message with an
empty list otherwise; a stock-5 product becomes stock-15, and restocking a
just-restocked product again changes nothing. -/
theorem updateLowStockProducts_spec (db : DB) (now : Nat) :
    (updateLowStockProducts db now).db.products
      = db.products.map restockProduct ∧
    (updateLowStockProducts db now).updatedProducts
      = (db.products.filter (fun p => decide (p.stock < 10))).map
          (fun p => { p with stock := p.stock + 10 }) ∧
    (db.products.filter (fun p => decide (p.stock < 10)) ≠ [] →
      (updateLowStockProducts db now).message
        = mkUpdateMessage
            (updateLowStockProducts db now).updatedProducts.length now) ∧
    (db.products.filter (fun p => decide (p.stock < 10)) = [] →
      (updateLowStockProducts db now).message
        = "No low-stock products found" ∧
      (updateLowStockProducts db now).updatedProducts = []) ∧
    (∀ p : Product, p.stock = 5 →
      restockProduct p = { p with stock := 15 } ∧
      restockProduct (restockProduct p) = restockProduct p) := by
  refine ⟨?_, ?_, ?_, ?_, ?_⟩
  · rw [updateLowStockProducts]
    split <;> rfl
  · rw [updateLowStockProducts]
    split
    · rename_i h
      simp only [List.isEmpty_iff, List.map_eq_nil_iff] at h
      simp [h]
    · rfl
  · intro hne
    rw [updateLowStockProducts]
    split
    · rename_i h
      simp only [List.isEmpty_iff, List.map_eq_nil_iff] at h
      exact absurd h hne
    · rfl
  · intro hnil
    rw [updateLowStockProducts]
    split
    · exact ⟨rfl, rfl⟩
    · rename_i h
      rw [hnil] at h
      simp at h
  · intro p hp
    have h15 : (restockProduct p).stock = 15 := by simp [restockProduct, hp]
    constructor
    · simp [restockProduct, hp]
    · conv_lhs => rw [restockProduct]
      rw [if_neg (by rw [h15]; decide)]

/-- Witness instantiating `updateLowStockProducts_spec` on a store holding
a stock-5 and a stock-12 product. -/
theorem updateLowStockProducts_spec_witness :
    (updateLowStockProducts exDB 42).message = mkUpdateMessage 1 42 ∧
    restockProduct exProd1 = { exProd1 with stock := 15 } := by
  have h := updateLowStockProducts_spec exDB 42
  constructor
  · have hm := h.2.2.1 (by decide)
    have hlen : (updateLowStockProducts exDB 42).updatedProducts.length = 1 :=
      by decide
    rw [hlen] at hm
    exact hm
  · exact (h.2.2.2.2 exProd1 (by decide)).1

/-- **C10**: `updateLowStockProducts` leaves products with stock ≥ 10
untouched, changes only the `stock` field of the rows it updates, and —
when every stock was non-negative beforehand — leaves no low-stock product
behind. -/
theorem updateLowStockProducts_frame (db : DB) (now : Nat) :
    (updateLowStockProducts db now).db.products
      = db.products.map restockProduct ∧
    (∀ p : Product, 10 ≤ p.stock → restockProduct p = p) ∧
    (∀ p : Product, (restockProduct p).id = p.id ∧
      (restockProduct p).name = p.name ∧
      (restockProduct p).price = p.price ∧
      (restockProduct p).description = p.description) ∧
    ((∀ p ∈ db.products, 0 ≤ p.stock) →
      ∀ q ∈ (updateLowStockProducts db now).db.products, 10 ≤ q.stock) := by
  have h1 : (updateLowStockProducts db now).db.products
      = db.products.map restockProduct := by
    rw [updateLowStockProducts]
    split <;> rfl
  refine ⟨h1, ?_, ?_, ?_⟩
  · intro p hp
    rw [restockProduct, if_neg (by omega)]
  · intro p
    rw [restockProduct]
    split <;> simp
  · intro hpos q hq
    rw [h1] at hq
    obtain ⟨p, hp, rfl⟩ := List.mem_map.mp hq
    have := hpos p hp
    rw [restockProduct]
    split
    · simp only []
      omega
    · rename_i hge
      omega

/-- Witness instantiating `updateLowStockProducts_frame`: the stock-12
product is untouched and the concrete store ends with no low-stock row. -/
theorem updateLowStockProducts_frame_witness :
    restockProduct exProd2 = exProd2 ∧
    ∀ q ∈ (updateLowStockProducts exDB 0).db.products, 10 ≤ q.stock := by
  have h := updateLowStockProducts_frame exDB 0
  exact ⟨h.2.1 exProd2 (by decide), h.2.2.2 (by decide)⟩

/-- **C6**: filtering products with `priceMin = 100, priceMax = 500` keeps
exactly the products whose price lies in `[100, 500]`; the empty
specification returns the collection unchanged; and bounds with
`min > max` yield the empty result rather than an error. -/
theorem productFilter_price_range (ps : List Product) (a b : Int) :
    (∀ p : Product,
      p ∈ applyProductFilter { priceGte := some 100, priceLte := some 500 } ps
        ↔ p ∈ ps ∧ 100 ≤ p.price ∧ p.price ≤ 500) ∧
    applyProductFilter {} ps = ps ∧
    (b < a →
      applyProductFilter { priceGte := some a, priceLte := some b } ps
        = []) := by
  refine ⟨?_, ?_, ?_⟩
  · intro p
    simp [applyProductFilter, List.mem_filter]
  · simp [applyProductFilter]
  · intro hba
    rw [applyProductFilter]
    simp only [List.filter_eq_nil_iff]
    intro p hp
    simp only [Bool.and_eq_true, decide_eq_true_eq, not_and]
    intro h
    omega

/-- Witness instantiating `productFilter_price_range` with reversed
bounds. -/
theorem productFilter_price_range_witness :
    applyProductFilter { priceGte := some 3, priceLte := some 1 }
      [exProd1] = [] :=
  (productFilter_price_range [exProd1] 3 1).2.2 (by decide)

lemma findUnknownKey_spec (allowed : List String)
    (spec : List (String × FilterVal)) (k : String) (v : FilterVal)
    (hk : (k, v) ∈ spec) (hnk : ¬ k ∈ allowed) :
    ∃ k2, findUnknownKey allowed spec = some k2 ∧ ¬ k2 ∈ allowed ∧
      ∃ v2, (k2, v2) ∈ spec := by
  have hsome : (findUnknownKey allowed spec).isSome := by
    rw [findUnknownKey, List.find?_isSome]
    exact ⟨k, List.mem_map.mpr ⟨(k, v), hk, rfl⟩, by simpa using hnk⟩
  obtain ⟨k2, h2⟩ := Option.isSome_iff_exists.mp hsome
  refine ⟨k2, h2, ?_, ?_⟩
  · have hp := List.find?_some h2
    simpa using hp
  · have hmem := List.mem_of_find?_eq_some h2
    obtain ⟨pair, hm, he⟩ := List.mem_map.mp hmem
    exact ⟨pair.2, by rw [← he]; simpa using hm⟩

/-- **C7**: a specification containing a criterion name outside the
enumerated set of the requested entity type is rejected with an
`InvalidFilterError` naming an offending unknown key from the
specification, and no result list is produced. -/
theorem unknown_filter_key_rejected
    (spec : List (String × FilterVal)) (ps : List Product)
    (cs : List Customer) (db : DB) (k : String) (v : FilterVal)
    (hk : (k, v) ∈ spec) :
    (¬ k ∈ productFilterKeys →
      ∃ k2, ¬ k2 ∈ productFilterKeys ∧ (∃ v2, (k2, v2) ∈ spec) ∧
        queryProducts spec ps = QueryOutcome.invalidFilter k2) ∧
    (¬ k ∈ customerFilterKeys →
      ∃ k2, ¬ k2 ∈ customerFilterKeys ∧ (∃ v2, (k2, v2) ∈ spec) ∧
        queryCustomers spec cs = QueryOutcome.invalidFilter k2) ∧
    (¬ k ∈ orderFilterKeys →
      ∃ k2, ¬ k2 ∈ orderFilterKeys ∧ (∃ v2, (k2, v2) ∈ spec) ∧
        queryOrders db spec = QueryOutcome.invalidFilter k2) := by
  refine ⟨?_, ?_, ?_⟩
  · intro hnk
    obtain ⟨k2, hfk, hnk2, hv2⟩ :=
      findUnknownKey_spec productFilterKeys spec k v hk hnk
    exact ⟨k2, hnk2, hv2, by rw [queryProducts, hfk]⟩
  · intro hnk
    obtain ⟨k2, hfk, hnk2, hv2⟩ :=
      findUnknownKey_spec customerFilterKeys spec k v hk hnk
    exact ⟨k2, hnk2, hv2, by rw [queryCustomers, hfk]⟩
  · intro hnk
    obtain ⟨k2, hfk, hnk2, hv2⟩ :=
      findUnknownKey_spec orderFilterKeys spec k v hk hnk
    exact ⟨k2, hnk2, hv2, by rw [queryOrders, hfk]⟩

/-- Witness instantiating `unknown_filter_key_rejected` with the unknown
criterion name "bogus", unknown for all three entity types. -/
theorem unknown_filter_key_rejected_witness :
    queryProducts [("bogus", FilterVal.int 3)] [exProd1]
      = QueryOutcome.invalidFilter "bogus" := by
  obtain ⟨k2, hk2, ⟨v2, hv2⟩, hq⟩ :=
    (unknown_filter_key_rejected [("bogus", FilterVal.int 3)] [exProd1] []
      emptyDB "bogus" (FilterVal.int 3) (by simp)).1 (by decide)
  have : k2 = "bogus" := by
    have := hv2
    simp at this
    exact this.1
  rw [this] at hq
  exact hq

/-- **C8** (the code contradicts the claim): both total-amount criteria
call `annotate` with the alias `total_amount`, which collides with the
stored `Order.total_amount` field, so Django raises `ValueError` — the
query errors out instead of comparing any recomputed sum. -/
theorem orderTotalFilter_annotation_conflict (db : DB) (v : Int)
    (os : List Order) :
    filterTotalAmountGte db v os = Except.error annotationConflictMsg ∧
    filterTotalAmountLte db v os = Except.error annotationConflictMsg :=
  ⟨rfl, rfl⟩

end CRM
